import Mathlib

/-!
Shallow embedding of the registration input validator of
`src/schemas/user.py` (class `UserCreate` with the pydantic field
validators `validate_username`, `validate_email`, `validate_password`),
together with proofs about the validation rules.

Modelling conventions:

* A raised `HTTPException(status_code, detail)` is `PyError.http`;
  a Python `AttributeError` is `PyError.attributeError`.  A validator
  that raises is `Except.error`, one that returns is `Except.ok`.
* The class-level `db_session` handle is an `Option Oracle`: `none` is
  Python `None` (falsy), `some o` is an attached session (truthy; a
  SQLAlchemy `Session` object defines no `__bool__`, so it is truthy).
  The oracle carries the existence answers the session could give;
  the embedded code never consults them, exactly as the source code
  never reaches its `filter(...).first()` calls (see below).
* `cls.query(User)` in the source resolves the attribute `query` on the
  class `UserCreate`; neither `UserCreate` nor pydantic's `BaseModel`
  defines `query`, so attribute lookup raises `AttributeError` before
  any database access.  The embedding returns
  `PyError.attributeError attrMsg` at that point.
* pydantic v2 runs field validators in field declaration order
  (`username`, `email`, `password`) and an exception other than
  `ValueError`/`AssertionError` raised inside a validator propagates
  immediately, so the first raise aborts validation; `userCreate`
  models this with the `Except` monad.
* `re.match(pat, s)` anchors at the start of `s`, and a trailing `$` in
  `pat` matches either at the end of `s` or just before one final
  newline character; `reMatchAnchored` reproduces this.
-/

namespace UserSchema

/-- Errors a validator can raise: an `HTTPException` with a status code
and a detail string, or a Python `AttributeError`. -/
inductive PyError where
  | http (statusCode : Nat) (detail : String)
  | attributeError (msg : String)
deriving DecidableEq, Repr

deriving instance DecidableEq for Except

/-- The uniqueness oracle a database session would provide: existence
answers for usernames and for emails (spec §3, `UniquenessOracle`). -/
structure Oracle where
  existsByUsername : String → Bool
  existsByEmail : String → Bool

/-- Message of the `AttributeError` raised by `cls.query` (the class
`UserCreate` has no attribute `query`). -/
def attrMsg : String := "type object UserCreate has no attribute query"

/-- Character class of Python's `\w` for `str` patterns.  Python's `\w`
is Unicode-aware; the source comment claims it matches `[a-zA-Z0-9_]`,
which is only its ASCII part.  We model it exactly on codepoints below
`0x100` (ASCII word characters plus the Latin-1 letters `ª µ º À-Ö Ø-ö
ø-ÿ`); word characters at or above `0x100` are not modelled and treated
as non-word.  No theorem below depends on characters at or above
`0x100`. -/
def pyWordChar (c : Char) : Bool :=
  c.isAlphanum || c == '_' ||
  c.toNat == 0xAA || c.toNat == 0xB5 || c.toNat == 0xBA ||
  (0xC0 ≤ c.toNat && c.toNat ≤ 0xFF && c.toNat != 0xD7 && c.toNat != 0xF7)

/-- Character class `[a-zA-Z0-9_.+-]` (local part of the email
pattern). -/
def isLocalChar (c : Char) : Bool :=
  c.isAlphanum || c == '_' || c == '.' || c == '+' || c == '-'

/-- Character class `[a-zA-Z0-9-]` (domain segment of the email
pattern, before the mandatory dot). -/
def isDomChar (c : Char) : Bool :=
  c.isAlphanum || c == '-'

/-- Character class `[a-zA-Z0-9-.]` (tail of the email pattern, after
the first dot of the domain). -/
def isTailChar (c : Char) : Bool :=
  c.isAlphanum || c == '-' || c == '.'

/-- Core of `^\w+$`: one or more word characters spanning the whole
input. -/
def wordCore (cs : List Char) : Bool :=
  !cs.isEmpty && cs.all pyWordChar

/-- Core of the email pattern
`^[a-zA-Z0-9_.+-]+@[a-zA-Z0-9-]+\.[a-zA-Z0-9-.]+$` on a whole input.
None of the three classes contains `@`, and the domain class contains
no dot, so matching is deterministic: the local part runs to the first
character outside its class, which must be `@`; the domain segment runs
to the first character after `@` outside its class, which must be `.`;
the nonempty remainder must lie in the tail class.  The greedy scans
are `takeWhile`/`dropWhile`. -/
def emailCore (cs : List Char) : Bool :=
  let lp := cs.takeWhile isLocalChar
  let r1 := cs.dropWhile isLocalChar
  if r1.head? = some '@' then
    let r2 := r1.tail
    let d := r2.takeWhile isDomChar
    let r3 := r2.dropWhile isDomChar
    if r3.head? = some '.' then
      let t := r3.tail
      !lp.isEmpty && !d.isEmpty && !t.isEmpty && t.all isTailChar
    else false
  else false

/-- Python `re.match` of a fully anchored pattern `^core$`: the core
matches the whole string, or the string ends in a newline and the core
matches everything before that final newline (Python's `$` matches just
before a trailing newline). -/
def reMatchAnchored (core : List Char → Bool) (s : String) : Bool :=
  core s.data || (s.data.getLast? == some '\n' && core s.data.dropLast)

/-- Detail string of the username length rejection. -/
def usernameLengthMsg : String := "Username must be between 3 and 30 characters"

/-- Detail string of the username charset rejection. -/
def usernameCharsetMsg : String := "Username can only contain letters, numbers, and underscores"

/-- Detail string of the (unreachable) username duplicate rejection. -/
def usernameDuplicateMsg : String := "Username or email already registered"

/-- Detail string of the email format rejection. -/
def emailFormatMsg : String := "Invalid email address"

/-- Detail string of the (unreachable) email duplicate rejection. -/
def emailDuplicateMsg : String := "Email already registered"

/-- Detail string of the password length rejection. -/
def pwLengthMsg : String := "Password must be at least 8 characters long"

/-- Detail string of the password uppercase rejection. -/
def pwUpperMsg : String := "Password must contain at least one uppercase letter"

/-- Detail string of the password lowercase rejection. -/
def pwLowerMsg : String := "Password must contain at least one lowercase letter"

/-- Detail string of the password digit rejection. -/
def pwDigitMsg : String := "Password must contain at least one digit"

/-- Detail string of the password special-character rejection. -/
def pwSpecialMsg : String := "Password must contain at least one special character"

/-- The special-character class `[!@#$%^&*(),.?\":{}|<>]` of the
password rule (braces written as `\x7b`/`\x7d`). -/
def specialChars : List Char :=
  ['!', '@', '#', '$', '%', '^', '&', '*', '(', ')', ',', '.', '?',
   '"', ':', '\x7b', '\x7d', '|', '<', '>']

/-- Embedding of `UserCreate.validate_username`.  Checks, in order:
length in `[3, 30]`; `re.match(r"^\w+$", username)`; then, when a
database session is attached, evaluates `cls.query`, which raises
`AttributeError` before any lookup. -/
def validate_username (db_session : Option Oracle) (username : String) :
    Except PyError String :=
  if ¬ (3 ≤ username.length ∧ username.length ≤ 30) then
    Except.error (PyError.http 400 usernameLengthMsg)
  else if !reMatchAnchored wordCore username then
    Except.error (PyError.http 400 usernameCharsetMsg)
  else if db_session.isSome then
    Except.error (PyError.attributeError attrMsg)
  else
    Except.ok username

/-- Embedding of `UserCreate.validate_email`.  Checks the email
pattern; then, when a database session is attached, evaluates
`cls.query`, which raises `AttributeError` before any lookup. -/
def validate_email (db_session : Option Oracle) (email : String) :
    Except PyError String :=
  if !reMatchAnchored emailCore email then
    Except.error (PyError.http 400 emailFormatMsg)
  else if db_session.isSome then
    Except.error (PyError.attributeError attrMsg)
  else
    Except.ok email

/-- Embedding of `UserCreate.validate_password`.  The `SecretStr`
wrapper is transparent here: `password` stands for
`password.get_secret_value()`.  Python's `re.search(r"\d", s)` matches
Unicode decimal digits; it is modelled on the ASCII range `[0-9]`
(`Char.isDigit`), where the two coincide; no theorem below depends on
non-ASCII digits.  `[A-Z]` and `[a-z]` are exactly `Char.isUpper` and
`Char.isLower`. -/
def validate_password (password : String) : Except PyError String :=
  if password.length < 8 then
    Except.error (PyError.http 400 pwLengthMsg)
  else if !password.data.any Char.isUpper then
    Except.error (PyError.http 400 pwUpperMsg)
  else if !password.data.any Char.isLower then
    Except.error (PyError.http 400 pwLowerMsg)
  else if !password.data.any Char.isDigit then
    Except.error (PyError.http 400 pwDigitMsg)
  else if !password.data.any (fun c => specialChars.contains c) then
    Except.error (PyError.http 400 pwSpecialMsg)
  else
    Except.ok password

/-- Embedding of validating a whole `UserCreate` model: pydantic runs
the three field validators in declaration order and the first raised
exception propagates immediately. -/
def userCreate (db_session : Option Oracle) (username email password : String) :
    Except PyError (String × String × String) := do
  let u ← validate_username db_session username
  let e ← validate_email db_session email
  let p ← validate_password password
  return (u, e, p)

/-- Spec-side reading of the email rule (spec §4.1, email item 1): the
string is one-or-more characters of the local class, then `@`, then
one-or-more characters of the domain class, then `.`, then one-or-more
characters of the tail class. -/
def emailSpecStructure (cs : List Char) : Prop :=
  ∃ lp d t : List Char,
    cs = lp ++ '@' :: (d ++ '.' :: t) ∧
    lp ≠ [] ∧ (∀ c ∈ lp, isLocalChar c = true) ∧
    d ≠ [] ∧ (∀ c ∈ d, isDomChar c = true) ∧
    t ≠ [] ∧ (∀ c ∈ t, isTailChar c = true)

/-- Spec-side username validation by the syntactic rules alone (spec §8:
with no oracle supplied, the duplicate checks are skipped entirely). -/
def syntacticValidateUsername (username : String) : Except PyError String :=
  if ¬ (3 ≤ username.length ∧ username.length ≤ 30) then
    Except.error (PyError.http 400 usernameLengthMsg)
  else if !reMatchAnchored wordCore username then
    Except.error (PyError.http 400 usernameCharsetMsg)
  else
    Except.ok username

/-- Spec-side email validation by the syntactic rule alone. -/
def syntacticValidateEmail (email : String) : Except PyError String :=
  if !reMatchAnchored emailCore email then
    Except.error (PyError.http 400 emailFormatMsg)
  else
    Except.ok email

/-- Spec-side whole-model validation by the syntactic rules alone, with
no notion of a database session or oracle anywhere. -/
def syntacticUserCreate (username email password : String) :
    Except PyError (String × String × String) := do
  let u ← syntacticValidateUsername username
  let e ← syntacticValidateEmail email
  let p ← validate_password password
  return (u, e, p)

/-- The three fields of the registration request. -/
inductive VField where
  | username | email | password
deriving DecidableEq, Repr, Fintype

/-- The per-sub-rule rejection reasons of spec §4.1. -/
inductive VReason where
  | length | charset | duplicate | format
  | tooShort | needsUppercase | needsLowercase | needsDigit | needsSpecial
deriving DecidableEq, Repr, Fintype

/-- The error value the source raises for each (field, sub-rule
reason) pair, `none` for pairs that have no sub-rule in the source.
The two duplicate payloads appear in the source text but are
unreachable (the `AttributeError` of `cls.query` fires first). -/
def rejectionPayload : VField → VReason → Option PyError
  | .username, .length => some (PyError.http 400 usernameLengthMsg)
  | .username, .charset => some (PyError.http 400 usernameCharsetMsg)
  | .username, .duplicate => some (PyError.http 400 usernameDuplicateMsg)
  | .email, .format => some (PyError.http 400 emailFormatMsg)
  | .email, .duplicate => some (PyError.http 400 emailDuplicateMsg)
  | .password, .tooShort => some (PyError.http 400 pwLengthMsg)
  | .password, .needsUppercase => some (PyError.http 400 pwUpperMsg)
  | .password, .needsLowercase => some (PyError.http 400 pwLowerMsg)
  | .password, .needsDigit => some (PyError.http 400 pwDigitMsg)
  | .password, .needsSpecial => some (PyError.http 400 pwSpecialMsg)
  | _, _ => none

/-- Index (0..4) of the first password sub-rule a candidate fails, or
`none` when all five pass; the conditions are those of
`validate_password`, in the same order. -/
def pwFirstFail (password : String) : Option Nat :=
  if password.length < 8 then some 0
  else if !password.data.any Char.isUpper then some 1
  else if !password.data.any Char.isLower then some 2
  else if !password.data.any Char.isDigit then some 3
  else if !password.data.any (fun c => specialChars.contains c) then some 4
  else none

/-- The constant rejection the password rule returns when its sub-rule
number `i` (0..4) is the first to fail; the password value does not
occur in it. -/
def pwRejectionAt : Nat → Except PyError String
  | 0 => Except.error (PyError.http 400 pwLengthMsg)
  | 1 => Except.error (PyError.http 400 pwUpperMsg)
  | 2 => Except.error (PyError.http 400 pwLowerMsg)
  | 3 => Except.error (PyError.http 400 pwDigitMsg)
  | _ => Except.error (PyError.http 400 pwSpecialMsg)

/-- A concrete oracle under which the username `john_doe` is already
registered and no email is. -/
def oracleJohn : Oracle where
  existsByUsername := fun s => s == "john_doe"
  existsByEmail := fun _ => false

/-- A concrete oracle under which nothing is registered. -/
def oracleEmpty : Oracle where
  existsByUsername := fun _ => false
  existsByEmail := fun _ => false

/-! Helper lemmas. -/

/-- A greedy character-class scan over `l₁ ++ a :: l₂` stops exactly at
`a` when every element of `l₁` is in the class and `a` is not. -/
theorem takeWhile_dropWhile_split {p : Char → Bool} :
    ∀ (l₁ : List Char) (a : Char) (l₂ : List Char),
      (∀ x ∈ l₁, p x = true) → p a = false →
      (l₁ ++ a :: l₂).takeWhile p = l₁ ∧ (l₁ ++ a :: l₂).dropWhile p = a :: l₂ := by
  intro l₁
  induction l₁ with
  | nil =>
    intro a l₂ _ ha
    simp [List.takeWhile_cons, List.dropWhile_cons, ha]
  | cons x xs ih =>
    intro a l₂ h ha
    have hx : p x = true := h x (by simp)
    have ihr := ih a l₂ (fun y hy => h y (by simp [hy])) ha
    simp [List.takeWhile_cons, List.dropWhile_cons, hx, ihr.1, ihr.2]

/-- The executable email-pattern core recognises exactly the strings
with the spec's local-part/`@`/domain/`.`/tail structure. -/
theorem emailCore_iff_spec (cs : List Char) :
    emailCore cs = true ↔ emailSpecStructure cs := by
  constructor
  · intro h
    unfold emailCore at h
    rcases hdw : cs.dropWhile isLocalChar with _ | ⟨c, r2⟩
    · rw [hdw] at h; simp at h
    · rw [hdw] at h
      simp only [List.head?_cons, List.tail_cons] at h
      by_cases hc : c = '@'
      · rw [if_pos (by rw [hc])] at h
        rcases hdw2 : r2.dropWhile isDomChar with _ | ⟨c2, t⟩
        · rw [hdw2] at h; simp at h
        · rw [hdw2] at h
          simp only [List.head?_cons, List.tail_cons] at h
          by_cases hc2 : c2 = '.'
          · rw [if_pos (by rw [hc2])] at h
            simp only [Bool.and_eq_true, Bool.not_eq_true',
              List.isEmpty_eq_false, List.all_eq_true] at h
            obtain ⟨⟨⟨hlp, hd⟩, ht⟩, htc⟩ := h
            have e1 := List.takeWhile_append_dropWhile (p := isLocalChar) (l := cs)
            have e2 := List.takeWhile_append_dropWhile (p := isDomChar) (l := r2)
            rw [hdw] at e1
            rw [hdw2] at e2
            subst hc
            subst hc2
            refine ⟨cs.takeWhile isLocalChar, r2.takeWhile isDomChar, t,
              ?_, hlp, ?_, hd, ?_, ht, htc⟩
            · rw [e2, e1]
            · intro x hx; exact List.mem_takeWhile_imp hx
            · intro x hx; exact List.mem_takeWhile_imp hx
          · rw [if_neg (by simpa using hc2)] at h
            exact absurd h (by simp)
      · rw [if_neg (by simpa using hc)] at h
        exact absurd h (by simp)
  · rintro ⟨lp, d, t, hcs, hlp, hlpc, hd, hdc, ht, htc⟩
    have h1 := takeWhile_dropWhile_split lp '@' (d ++ '.' :: t) hlpc (by decide)
    have h2 := takeWhile_dropWhile_split d '.' t hdc (by decide)
    subst hcs
    unfold emailCore
    rw [h1.1, h1.2]
    simp only [List.head?_cons, List.tail_cons, if_pos rfl]
    rw [h2.1, h2.2]
    simp only [List.head?_cons, List.tail_cons, if_pos rfl, Bool.and_eq_true,
      Bool.not_eq_true', List.isEmpty_eq_false, List.all_eq_true]
    simp only [if_true, Bool.and_eq_true, Bool.not_eq_true',
      List.isEmpty_eq_false, List.all_eq_true]
    exact ⟨⟨⟨hlp, hd⟩, ht⟩, htc⟩

/-- Any string with the spec's email structure ends in a tail-class
character. -/
theorem emailSpecStructure_last {cs : List Char} (h : emailSpecStructure cs) :
    ∃ c, cs.getLast? = some c ∧ isTailChar c = true := by
  rcases h with ⟨lp, d, t, hcs, _, _, _, _, ht, htc⟩
  refine ⟨t.getLast ht, ?_, htc _ (List.getLast_mem ht)⟩
  subst hcs
  conv_lhs => rw [← List.dropLast_append_getLast ht]
  rw [show lp ++ '@' :: (d ++ '.' :: (t.dropLast ++ [t.getLast ht]))
        = (lp ++ '@' :: (d ++ '.' :: t.dropLast)) ++ [t.getLast ht] by
      simp [List.append_assoc]]
  exact List.getLast?_concat _

/-- Bind on a success in the `Except` monad applies the continuation. -/
theorem except_bind_ok {ε α β : Type} (a : α) (f : α → Except ε β) :
    (Except.ok a >>= f : Except ε β) = f a := rfl

/-- Bind on an error in the `Except` monad short-circuits. -/
theorem except_bind_error {ε α β : Type} (e : ε) (f : α → Except ε β) :
    (Except.error e >>= f : Except ε β) = Except.error e := rfl

/-- With no session attached, `validate_username` is the syntactic
username rule. -/
theorem validate_username_none (u : String) :
    validate_username none u = syntacticValidateUsername u := by
  unfold validate_username syntacticValidateUsername
  simp

/-- With no session attached, `validate_email` is the syntactic email
rule. -/
theorem validate_email_none (e : String) :
    validate_email none e = syntacticValidateEmail e := by
  unfold validate_email syntacticValidateEmail
  simp

/-- Every error of `validate_username` is the length rejection, the
charset rejection, or the `AttributeError` of the session branch. -/
theorem validate_username_error_cases (db : Option Oracle) (u : String)
    (err : PyError) (h : validate_username db u = Except.error err) :
    err = PyError.http 400 usernameLengthMsg ∨
    err = PyError.http 400 usernameCharsetMsg ∨
    err = PyError.attributeError attrMsg := by
  unfold validate_username at h
  split_ifs at h <;> simp_all

/-- Every error of `validate_email` is the format rejection or the
`AttributeError` of the session branch. -/
theorem validate_email_error_cases (db : Option Oracle) (e : String)
    (err : PyError) (h : validate_email db e = Except.error err) :
    err = PyError.http 400 emailFormatMsg ∨
    err = PyError.attributeError attrMsg := by
  unfold validate_email at h
  split_ifs at h <;> simp_all

/-- Every error of `validate_password` is one of the five password
rejections. -/
theorem validate_password_error_cases (p : String)
    (err : PyError) (h : validate_password p = Except.error err) :
    err = PyError.http 400 pwLengthMsg ∨ err = PyError.http 400 pwUpperMsg ∨
    err = PyError.http 400 pwLowerMsg ∨ err = PyError.http 400 pwDigitMsg ∨
    err = PyError.http 400 pwSpecialMsg := by
  unfold validate_password at h
  split_ifs at h <;> simp_all

/-- Every error of the whole validation is an error of one of the three
field validators. -/
theorem userCreate_error_cases (db : Option Oracle) (u e p : String)
    (err : PyError) (h : userCreate db u e p = Except.error err) :
    validate_username db u = Except.error err ∨
    validate_email db e = Except.error err ∨
    validate_password p = Except.error err := by
  unfold userCreate at h
  cases hu : validate_username db u with
  | error eu =>
    rw [hu, except_bind_error] at h
    exact Or.inl (by rw [Except.error.inj h])
  | ok u1 =>
    rw [hu, except_bind_ok] at h
    cases he : validate_email db e with
    | error ee =>
      rw [he, except_bind_error] at h
      exact Or.inr (Or.inl (by rw [Except.error.inj h]))
    | ok e1 =>
      rw [he, except_bind_ok] at h
      cases hp : validate_password p with
      | error ep =>
        rw [hp, except_bind_error] at h
        exact Or.inr (Or.inr (by rw [Except.error.inj h]))
      | ok p1 =>
        rw [hp, except_bind_ok] at h
        exact absurd h (by simp [pure, Except.pure])

/-! Claim theorems. -/

/-- C1: evaluation of the code at the failing input.  The oracle
reports that the username `john_doe` is already registered and the
request is syntactically valid in every field, yet validation does not
reject with reason "duplicate": the session branch raises an
`AttributeError` (from `cls.query`) before any lookup. -/
theorem C1_oracle_duplicate_gives_attribute_error :
    oracleJohn.existsByUsername "john_doe" = true ∧
    userCreate (some oracleJohn) "john_doe" "john@example.com" "SecurePass1!" =
      Except.error (PyError.attributeError attrMsg) := by
  decide

/-- C2: whenever the username passes the length and charset checks and
a session is attached, `validate_username` yields the `AttributeError`
of `cls.query`, for every oracle alike (so no lookup can influence the
result and no duplicate decision is ever produced); likewise for
`validate_email` once the format check passes. -/
theorem C2_session_branch_attribute_error :
    (∀ (o : Oracle) (u : String), (3 ≤ u.length ∧ u.length ≤ 30) →
        reMatchAnchored wordCore u = true →
        validate_username (some o) u = Except.error (PyError.attributeError attrMsg)) ∧
    (∀ (o : Oracle) (e : String), reMatchAnchored emailCore e = true →
        validate_email (some o) e = Except.error (PyError.attributeError attrMsg)) := by
  constructor
  · intro o u hl hc
    unfold validate_username
    rw [if_neg (not_not_intro hl), if_neg (by simp [hc]), if_pos (by simp)]
  · intro o e hc
    unfold validate_email
    rw [if_neg (by simp [hc]), if_pos (by simp)]

/-- Witness for C2 at concrete inputs. -/
theorem C2_session_branch_attribute_error_witness :
    validate_username (some oracleEmpty) "john_doe" =
      Except.error (PyError.attributeError attrMsg) ∧
    validate_email (some oracleEmpty) "john@example.com" =
      Except.error (PyError.attributeError attrMsg) :=
  ⟨C2_session_branch_attribute_error.1 oracleEmpty "john_doe" (by decide) (by decide),
   C2_session_branch_attribute_error.2 oracleEmpty "john@example.com" (by decide)⟩

/-- C3: evaluation of the code at the failing input `"abc\n"`.  The
username has length 4 and contains a newline, which is not an ASCII
letter, digit or underscore, yet the charset check `re.match(r"^\w+$",
username)` accepts it (Python's `$` matches just before a trailing
newline), so validation accepts the username instead of rejecting it
with reason "charset". -/
theorem C3_charset_check_accepts_newline :
    validate_username none "abc\n" = Except.ok "abc\n" ∧
    "abc\n".data.all (fun c => c.isAlphanum || c == '_') = false := by
  decide

/-- C8: for every session state and every candidate username,
`validate_username` yields the length rejection exactly when the
character count is outside `[3, 30]`; in particular the length check
precedes all others. -/
theorem C8_username_length_rule (db : Option Oracle) (u : String) :
    validate_username db u = Except.error (PyError.http 400 usernameLengthMsg) ↔
      ¬ (3 ≤ u.length ∧ u.length ≤ 30) := by
  unfold validate_username
  split_ifs with h1 h2 h3 <;>
    simp_all [usernameLengthMsg, usernameCharsetMsg, attrMsg]

/-- C9: with no session attached, whole-model validation coincides with
the purely syntactic pipeline, in which no duplicate check (and no
notion of an oracle) occurs at all. -/
theorem C9_no_oracle_syntactic_only (u e p : String) :
    userCreate none u e p = syntacticUserCreate u e p := by
  unfold userCreate syntacticUserCreate
  rw [validate_username_none, validate_email_none]

/-- C5: the password check evaluates its five rules in order and
returns the first failure: the length rejection exactly when the length
is below 8; else the uppercase rejection exactly when no uppercase
letter occurs; else the lowercase, digit and special-character
rejections likewise; and acceptance exactly when all five rules hold. -/
theorem C5_password_rules (p : String) :
    (validate_password p = Except.error (PyError.http 400 pwLengthMsg) ↔
      p.length < 8) ∧
    (validate_password p = Except.error (PyError.http 400 pwUpperMsg) ↔
      (8 ≤ p.length ∧ ∀ c ∈ p.data, Char.isUpper c = false)) ∧
    (validate_password p = Except.error (PyError.http 400 pwLowerMsg) ↔
      (8 ≤ p.length ∧ (∃ c ∈ p.data, Char.isUpper c = true) ∧
        ∀ c ∈ p.data, Char.isLower c = false)) ∧
    (validate_password p = Except.error (PyError.http 400 pwDigitMsg) ↔
      (8 ≤ p.length ∧ (∃ c ∈ p.data, Char.isUpper c = true) ∧
        (∃ c ∈ p.data, Char.isLower c = true) ∧
        ∀ c ∈ p.data, Char.isDigit c = false)) ∧
    (validate_password p = Except.error (PyError.http 400 pwSpecialMsg) ↔
      (8 ≤ p.length ∧ (∃ c ∈ p.data, Char.isUpper c = true) ∧
        (∃ c ∈ p.data, Char.isLower c = true) ∧
        (∃ c ∈ p.data, Char.isDigit c = true) ∧
        ∀ c ∈ p.data, specialChars.contains c = false)) ∧
    (validate_password p = Except.ok p ↔
      (8 ≤ p.length ∧ (∃ c ∈ p.data, Char.isUpper c = true) ∧
        (∃ c ∈ p.data, Char.isLower c = true) ∧
        (∃ c ∈ p.data, Char.isDigit c = true) ∧
        ∃ c ∈ p.data, specialChars.contains c = true)) := by
  unfold validate_password
  split_ifs with h1 h2 h3 h4 h5 <;>
    simp_all [List.any_eq_true, Nat.not_lt, Nat.lt_iff_add_one_le,
      pwLengthMsg, pwUpperMsg, pwLowerMsg, pwDigitMsg, pwSpecialMsg]

/-- C7 counterexample: the email `"john@example.com\n"` ends in a
newline, so it does not consist of local-part, `@`, domain, dot and
tail as the claim requires, yet the format check accepts it (Python's
`$` matches just before a trailing newline). -/
theorem C7_counterexample_newline :
    validate_email none "john@example.com\n" = Except.ok "john@example.com\n" ∧
    ¬ emailSpecStructure "john@example.com\n".data := by
  constructor
  · decide
  · intro h
    obtain ⟨c, hlast, htail⟩ := emailSpecStructure_last h
    have h2 : "john@example.com\n".data.getLast? = some '\n' := by decide
    rw [h2] at hlast
    injection hlast with hc
    rw [← hc] at htail
    exact absurd htail (by decide)

/-- C7 amended: the email format check accepts a string exactly when
the string itself, or the string with one final newline removed, has
the structure local-part, `@`, domain, dot, tail of the claim. -/
theorem C7_email_format_iff (s : String) :
    validate_email none s = Except.ok s ↔
      (emailSpecStructure s.data ∨
        (s.data.getLast? = some '\n' ∧ emailSpecStructure s.data.dropLast)) := by
  have hiff : reMatchAnchored emailCore s = true ↔
      (emailSpecStructure s.data ∨
        (s.data.getLast? = some '\n' ∧ emailSpecStructure s.data.dropLast)) := by
    unfold reMatchAnchored
    simp only [Bool.or_eq_true, Bool.and_eq_true, beq_iff_eq, emailCore_iff_spec]
  rw [← hiff]
  unfold validate_email
  by_cases hm : reMatchAnchored emailCore s = true <;> simp [hm]

/-- C6: fields are validated in the order username, email, password,
and the first error anywhere is returned with no further checking (the
later fields' values are irrelevant); within a field the sub-rules run
in their listed order (username: length, then charset, then the session
branch; email: format, then the session branch). -/
theorem C6_evaluation_order :
    (∀ (db : Option Oracle) (u e p : String) (err : PyError),
        validate_username db u = Except.error err →
        userCreate db u e p = Except.error err) ∧
    (∀ (db : Option Oracle) (u e p : String) (err : PyError),
        validate_username db u = Except.ok u →
        validate_email db e = Except.error err →
        userCreate db u e p = Except.error err) ∧
    (∀ (db : Option Oracle) (u e p : String) (err : PyError),
        validate_username db u = Except.ok u →
        validate_email db e = Except.ok e →
        validate_password p = Except.error err →
        userCreate db u e p = Except.error err) ∧
    (∀ (db : Option Oracle) (u e p : String),
        validate_username db u = Except.ok u →
        validate_email db e = Except.ok e →
        validate_password p = Except.ok p →
        userCreate db u e p = Except.ok (u, e, p)) ∧
    (∀ (db : Option Oracle) (u : String), ¬ (3 ≤ u.length ∧ u.length ≤ 30) →
        validate_username db u = Except.error (PyError.http 400 usernameLengthMsg)) ∧
    (∀ (db : Option Oracle) (u : String), (3 ≤ u.length ∧ u.length ≤ 30) →
        reMatchAnchored wordCore u = false →
        validate_username db u = Except.error (PyError.http 400 usernameCharsetMsg)) ∧
    (∀ (db : Option Oracle) (e : String), reMatchAnchored emailCore e = false →
        validate_email db e = Except.error (PyError.http 400 emailFormatMsg)) := by
  refine ⟨?_, ?_, ?_, ?_, ?_, ?_, ?_⟩
  · intro db u e p err h
    unfold userCreate
    rw [h, except_bind_error]
  · intro db u e p err h1 h2
    unfold userCreate
    rw [h1, except_bind_ok, h2, except_bind_error]
  · intro db u e p err h1 h2 h3
    unfold userCreate
    rw [h1, except_bind_ok, h2, except_bind_ok, h3, except_bind_error]
  · intro db u e p h1 h2 h3
    unfold userCreate
    rw [h1, except_bind_ok, h2, except_bind_ok, h3, except_bind_ok]
    rfl
  · intro db u h
    unfold validate_username
    rw [if_pos h]
  · intro db u hl hc
    unfold validate_username
    rw [if_neg (not_not_intro hl), if_pos (by simp [hc])]
  · intro db e hc
    unfold validate_email
    rw [if_pos (by simp [hc])]

/-- Witness for C6 at concrete inputs: a failing username stops
validation with the username error for any email and password, and the
sub-rule facts at concrete values. -/
theorem C6_evaluation_order_witness :
    userCreate none "ab" "not-an-email" "x" =
      Except.error (PyError.http 400 usernameLengthMsg) ∧
    userCreate none "john_doe" "not-an-email" "x" =
      Except.error (PyError.http 400 emailFormatMsg) ∧
    userCreate none "john_doe" "john@example.com" "short1!" =
      Except.error (PyError.http 400 pwLengthMsg) ∧
    userCreate none "john_doe" "john@example.com" "SecurePass1!" =
      Except.ok ("john_doe", "john@example.com", "SecurePass1!") ∧
    validate_username none "john doe" =
      Except.error (PyError.http 400 usernameCharsetMsg) :=
  ⟨C6_evaluation_order.1 none "ab" "not-an-email" "x" _ (by decide),
   C6_evaluation_order.2.1 none "john_doe" "not-an-email" "x" _ (by decide) (by decide),
   C6_evaluation_order.2.2.1 none "john_doe" "john@example.com" "short1!" _
     (by decide) (by decide) (by decide),
   C6_evaluation_order.2.2.2.1 none "john_doe" "john@example.com" "SecurePass1!"
     (by decide) (by decide) (by decide),
   C6_evaluation_order.2.2.2.2.2.1 none "john doe" (by decide) (by decide)⟩

/-- The password validator is determined by the index of the first
failing sub-rule: the constant rejection at that index, or acceptance
when no sub-rule fails. -/
theorem validate_password_eq_firstFail (p : String) :
    validate_password p = (match pwFirstFail p with
      | none => Except.ok p
      | some i => pwRejectionAt i) := by
  unfold validate_password pwFirstFail
  split_ifs <;> rfl

/-- C10: the error payload of a password rejection is a function of the
first failing sub-rule alone, never of the password content: two
candidates failing the same first sub-rule receive identical errors,
and every password rejection is one of five constant payloads in which
the password does not occur. -/
theorem C10_password_error_content_independent :
    (∀ (p1 p2 : String) (i : Nat), pwFirstFail p1 = some i → pwFirstFail p2 = some i →
        validate_password p1 = validate_password p2) ∧
    (∀ (p : String) (err : PyError), validate_password p = Except.error err →
        err = PyError.http 400 pwLengthMsg ∨ err = PyError.http 400 pwUpperMsg ∨
        err = PyError.http 400 pwLowerMsg ∨ err = PyError.http 400 pwDigitMsg ∨
        err = PyError.http 400 pwSpecialMsg) := by
  constructor
  · intro p1 p2 i h1 h2
    rw [validate_password_eq_firstFail p1, validate_password_eq_firstFail p2, h1, h2]
  · exact validate_password_error_cases

/-- Witness for C10: two different too-short passwords receive the
identical rejection. -/
theorem C10_password_error_content_independent_witness :
    validate_password "abc" = validate_password "de" :=
  C10_password_error_content_independent.1 "abc" "de" 0 (by decide) (by decide)

/-- C4: the (field, reason) pairs of the source's rejections map
injectively to error payloads — the payload determines the failing
field and the sub-rule, so there is no single generic validation error
— and every error the validation produces is either one of these
payloads or the `AttributeError` of the session branch. -/
theorem C4_rejections_carry_field_and_reason :
    (∀ (f1 : VField) (r1 : VReason) (f2 : VField) (r2 : VReason),
        (rejectionPayload f1 r1).isSome = true →
        rejectionPayload f1 r1 = rejectionPayload f2 r2 → f1 = f2 ∧ r1 = r2) ∧
    (∀ (db : Option Oracle) (u e p : String) (err : PyError),
        userCreate db u e p = Except.error err →
        err = PyError.attributeError attrMsg ∨
        ∃ f r, rejectionPayload f r = some err) := by
  constructor
  · decide
  · intro db u e p err h
    rcases userCreate_error_cases db u e p err h with hu | he | hp
    · rcases validate_username_error_cases db u err hu with h1 | h1 | h1
      · exact Or.inr ⟨.username, .length, by simp [rejectionPayload, h1]⟩
      · exact Or.inr ⟨.username, .charset, by simp [rejectionPayload, h1]⟩
      · exact Or.inl h1
    · rcases validate_email_error_cases db e err he with h1 | h1
      · exact Or.inr ⟨.email, .format, by simp [rejectionPayload, h1]⟩
      · exact Or.inl h1
    · rcases validate_password_error_cases p err hp with h1 | h1 | h1 | h1 | h1
      · exact Or.inr ⟨.password, .tooShort, by simp [rejectionPayload, h1]⟩
      · exact Or.inr ⟨.password, .needsUppercase, by simp [rejectionPayload, h1]⟩
      · exact Or.inr ⟨.password, .needsLowercase, by simp [rejectionPayload, h1]⟩
      · exact Or.inr ⟨.password, .needsDigit, by simp [rejectionPayload, h1]⟩
      · exact Or.inr ⟨.password, .needsSpecial, by simp [rejectionPayload, h1]⟩

/-- Witness for C4 at concrete inputs: the username-length payload
determines its pair, and a concrete rejection is among the payloads. -/
theorem C4_rejections_carry_field_and_reason_witness :
    (VField.username = VField.username ∧ VReason.length = VReason.length) ∧
    (PyError.http 400 usernameLengthMsg = PyError.attributeError attrMsg ∨
      ∃ f r, rejectionPayload f r = some (PyError.http 400 usernameLengthMsg)) :=
  ⟨C4_rejections_carry_field_and_reason.1 .username .length .username .length
      (by decide) rfl,
   C4_rejections_carry_field_and_reason.2 none "ab" "a@b.c" "pw"
      (PyError.http 400 usernameLengthMsg) (by decide)⟩

end UserSchema
